import Mathlib

/-!
Verification of the dwl-launcher session launcher (src/main.rs) against its
natural-language specification.  The Rust program is shallowly embedded:
pure functions become Lean functions, and the filesystem / process effects
become explicit state passing over a small filesystem model.
-/

/-- A startup service: a human-readable label and a shell command line,
mirroring `struct Service { name: String, exec: String }`. -/
structure Service where
  name : String
  exec : String
deriving DecidableEq, Repr

/-- The parsed `services` document, mirroring
`struct ServiceFile { service: Vec<Service> }`. -/
structure ServiceFile where
  service : List Service
deriving DecidableEq, Repr

/-- Mirrors `impl Default for ServiceFile`: one entry importing
session environment variables. -/
def ServiceFile.default : ServiceFile :=
  { service := [ { name := "Import environment",
                   exec := "/sbin/systemctl --user import-environment DISPLAY WAYLAND_DISPLAY XDG_CURRENT_DESKTOP" } ] }

/-- The environment map `type Envs = HashMap<String, String>`, embedded as an
association list (keys unique in every document this program handles). -/
abbrev EnvsM : Type := List (String × String)

/-- The default `envs` document built in `prepare`. -/
def defaultEnvs : EnvsM :=
  [("XDG_CURRENT_DESKTOP", "wlroots"), ("XDG_SESSION_TYPE", "wayland")]

/-- Concatenation of a list of strings (kernel-reduction friendly). -/
def joinStrings : List String → String
  | [] => ""
  | s :: rest => s ++ joinStrings rest

/-- Mirrors `generate_script`: pushes the shebang and a blank line, then for
each service in input order pushes `# <name>\n` and `<exec> &\n`.
The `println!` observability side effect is irrelevant to the returned value. -/
def generate_script (services : ServiceFile) : String :=
  services.service.foldl
    (fun string s => string ++ "# " ++ s.name ++ "\n" ++ s.exec ++ " &\n")
    "#!/bin/bash\n\n"

/-- The `# <name>` / `<exec> &` textual block emitted for one service. -/
def serviceBlock (s : Service) : String :=
  "# " ++ s.name ++ "\n" ++ s.exec ++ " &\n"

/-- Outcome of running a fragment of the Rust program: a returned value, a
returned error (`Err(...)` propagated with `?`), or a panic (`expect`). -/
inductive Outcome (α : Type) where
  | ok : α → Outcome α
  | err : String → Outcome α
  | panic : String → Outcome α
deriving Repr, DecidableEq

/-- Whether an outcome is a returned `Ok` value. -/
def Outcome.isOk {α : Type} : Outcome α → Bool
  | .ok _ => true
  | _ => false

/-- Whether an outcome is a returned error (as opposed to a panic). -/
def Outcome.isErr {α : Type} : Outcome α → Bool
  | .err _ => true
  | _ => false

/-- Whether an outcome is a panic. -/
def Outcome.isPanic {α : Type} : Outcome α → Bool
  | .panic _ => true
  | _ => false

/-- An operating-system string as the program observes it: the only operation
the source applies to the `whoami()` result is `to_str`, which yields `none`
when the bytes are not valid UTF-8. -/
structure OsStrM where
  toStr : Option String

/-- Mirrors `get_config_dir`.  `whoami().expect("Cannot get username")` panics
when the username cannot be determined; `to_str().ok_or(...)?` returns an
error when it is not valid UTF-8; otherwise the directory string
`/home/<username>/.config/dwl-launcher` is built. -/
def get_config_dir (whoamiResult : Option OsStrM) : Outcome String :=
  match whoamiResult with
  | none => .panic "Cannot get username"
  | some username =>
    match username.toStr with
    | none => .err "Cannot translate username"
    | some s => .ok ("/home/" ++ s ++ "/.config/dwl-launcher")

/-- Concatenate paths separated by the Unix `PATH` separator `:`. -/
def joinColon : List String → String
  | [] => ""
  | [s] => s
  | s :: rest => s ++ ":" ++ joinColon rest

/-- Mirrors `std::env::join_paths` on Unix: fails if any path contains the
separator `:`, otherwise concatenates the paths separated by `:`. -/
def join_paths (paths : List String) : Outcome String :=
  if paths.any (fun p => p.data.any (fun c => c == ':')) then
    .err "JoinPathsError"
  else
    .ok (joinColon paths)

/-- Mirrors `join_with_tail`: `join_paths(&[root, tail])` converted to a path. -/
def join_with_tail (root tail : String) : Outcome String :=
  join_paths [root, tail]

/-! ## Filesystem model -/

/-- The observable data of one regular file: its byte content (as a string)
and its Unix permission mode bits. -/
structure FileData where
  content : String
  mode : Nat
deriving DecidableEq, Repr

/-- The filesystem state the program interacts with: the set of existing
directories and a map from file path to file data. -/
structure FSState where
  dirs : List String
  files : List (String × FileData)
deriving DecidableEq, Repr

/-- Association-list lookup by path. -/
def alookup {α : Type} : List (String × α) → String → Option α
  | [], _ => none
  | (k, v) :: rest, p => if k = p then some v else alookup rest p

/-- Remove every binding of a path. -/
def eraseKey {α : Type} : List (String × α) → String → List (String × α)
  | [], _ => []
  | (k, v) :: rest, p => if k = p then eraseKey rest p else (k, v) :: eraseKey rest p

/-- Overwrite (or create) the file at `path` with data `d`. -/
def setFile (path : String) (d : FileData) (fs : FSState) : FSState :=
  { fs with files := (path, d) :: eraseKey fs.files path }

/-- Split a character list at every occurrence of `sep` (accumulator form). -/
def splitOnCharAux (sep : Char) : List Char → List Char → List (List Char)
  | [], acc => [acc.reverse]
  | c :: cs, acc =>
    if c == sep then acc.reverse :: splitOnCharAux sep cs []
    else splitOnCharAux sep cs (c :: acc)

/-- Split a character list at every occurrence of `sep`. -/
def splitOnChar (sep : Char) (cs : List Char) : List (List Char) :=
  splitOnCharAux sep cs []

/-- The `/`-separated components of a path string. -/
def pathComponents (p : String) : List String :=
  (splitOnChar '/' p.data).map String.mk

/-- Join path components back with `/`. -/
def joinComps : List String → String
  | [] => ""
  | [s] => s
  | s :: rest => s ++ "/" ++ joinComps rest

/-- Mirrors `directory_of`: `Path::parent()` mapped into a `PathBuf`, erroring
(message rendered here without the apostrophe of the source text) when the path has no parent. -/
def directory_of (p : String) : Outcome String :=
  if p = "" ∨ p = "/" then .err "Cannot get parent directory"
  else .ok (joinComps (pathComponents p).dropLast)

/-- All nonempty prefixes of a component list. -/
def componentPrefixes : List String → List (List String)
  | [] => []
  | c :: rest => [c] :: (componentPrefixes rest).map (fun l => c :: l)

/-- The chain of directories `fs::create_dir_all p` brings into existence:
every proper ancestor of `p` followed by `p` itself. -/
def dirsOf (p : String) : List String :=
  ((componentPrefixes (pathComponents p)).map joinComps).dropLast ++ [p]

/-- Add a directory to the set if missing. -/
def addDir (d : String) (ds : List String) : List String :=
  if d ∈ ds then ds else ds ++ [d]

/-- Mirrors `fs::create_dir_all`: creates the whole ancestor chain of `p`,
idempotently. -/
def create_dir_all (p : String) (fs : FSState) : FSState :=
  { fs with dirs := (dirsOf p).foldl (fun acc d => addDir d acc) fs.dirs }

/-- Failure injection for the fallible filesystem primitives: each component
answers whether the corresponding syscall fails on the given path.  A
filesystem failure (permission denied, disk full, ...) is a property of the
outside world, so it is part of the model input. -/
structure FSOracle where
  createDirAllFails : String → Bool
  createFails : String → Bool
  writeFails : String → Bool
  setPermFails : String → Bool
  readFails : String → Bool

/-- The oracle under which every filesystem primitive succeeds. -/
def noFailOracle : FSOracle :=
  { createDirAllFails := fun _ => false
    createFails := fun _ => false
    writeFails := fun _ => false
    setPermFails := fun _ => false
    readFails := fun _ => false }

/-- The mode `File::create` leaves on the file: the previous mode when the
file already exists, the default `0o644` for a newly created one. -/
def prevModeOf (fs : FSState) (path : String) : Nat :=
  match alookup fs.files path with
  | some d => d.mode
  | none => 0o644

/-- Mirrors `write_string`: create the parent directory chain, create or
truncate the file, write the string verbatim, then set mode `0o744`.  Each
fallible step consults the oracle and propagates its failure with `?`,
leaving the effects of the already completed steps in place (the branches
spell out the accumulated state at each failure point). -/
def write_string (oracle : FSOracle) (string path : String) (fs : FSState) :
    Outcome Unit × FSState :=
  match directory_of path with
  | .err e => (.err e, fs)
  | .panic m => (.panic m, fs)
  | .ok parent =>
    if oracle.createDirAllFails parent then (.err "IOError", fs)
    else if oracle.createFails path then (.err "IOError", create_dir_all parent fs)
    else if oracle.writeFails path then
      (.err "IOError",
        setFile path ⟨"", prevModeOf (create_dir_all parent fs) path⟩
          (create_dir_all parent fs))
    else if oracle.setPermFails path then
      (.err "IOError",
        setFile path ⟨string, prevModeOf (create_dir_all parent fs) path⟩
          (setFile path ⟨"", prevModeOf (create_dir_all parent fs) path⟩
            (create_dir_all parent fs)))
    else
      (.ok (),
        setFile path ⟨string, 0o744⟩
          (setFile path ⟨string, prevModeOf (create_dir_all parent fs) path⟩
            (setFile path ⟨"", prevModeOf (create_dir_all parent fs) path⟩
              (create_dir_all parent fs))))

/-- Mirrors `fs::File::create_new`: exclusive creation.  Returns `is_ok` and
the new state; fails exactly when the file already exists, creating an empty
file (default mode `0o644`) otherwise. -/
def file_create_new (path : String) (fs : FSState) : Bool × FSState :=
  match alookup fs.files path with
  | some _ => (false, fs)
  | none => (true, setFile path ⟨"", 0o644⟩ fs)

/-! ## Config format (toml subset used by the two documents) -/

/-- The `[[service]]` block `toml::to_string` emits for one service entry. -/
def serializeService (s : Service) : String :=
  "[[service]]\nname = \"" ++ s.name ++ "\"\nexec = \"" ++ s.exec ++ "\"\n"

/-- Modelled from the spec: `toml::to_string` (third-party serializer, not in
this repository) on a `ServiceFile` document — an array-of-tables block per
service entry. -/
def toml_to_string_services (sf : ServiceFile) : String :=
  joinStrings (sf.service.map serializeService)

/-- Modelled from the spec: `toml::to_string` on an `Envs` map — one
`key = "value"` line per entry, in iteration order. -/
def toml_to_string_envs (envs : EnvsM) : String :=
  joinStrings (envs.map (fun kv => kv.1 ++ " = \"" ++ kv.2 ++ "\"\n"))

/-- Drop leading spaces. -/
def dropSpaces : List Char → List Char
  | ' ' :: cs => dropSpaces cs
  | cs => cs

/-- Read a bare key: the characters before the first space or `=`. -/
def takeKey : List Char → List Char × List Char
  | [] => ([], [])
  | c :: cs =>
    if c == ' ' || c == '=' then ([], c :: cs)
    else
      let (k, rest) := takeKey cs
      (c :: k, rest)

/-- Read the body of a basic quoted string, requiring the closing quote to
end the line (no escape sequences: none occur in these documents). -/
def parseQuotedAux : List Char → List Char → Option String
  | [], _ => none
  | '"' :: rest, acc => if rest.isEmpty then some (String.mk acc.reverse) else none
  | c :: rest, acc => parseQuotedAux rest (c :: acc)

/-- Read a basic quoted string covering the whole remaining line. -/
def parseQuoted : List Char → Option String
  | '"' :: rest => parseQuotedAux rest []
  | _ => none

/-- Parse one `key = "value"` line. -/
def parseKV (line : List Char) : Option (String × String) :=
  let (k, rest) := takeKey line
  match dropSpaces rest with
  | '=' :: rest2 =>
    match parseQuoted (dropSpaces rest2) with
    | some v => if k.isEmpty then none else some (String.mk k, v)
    | none => none
  | _ => none

/-- The nonempty lines of a document. -/
def nonEmptyLines (s : String) : List (List Char) :=
  (splitOnChar '\n' s.data).filter (fun l => !l.isEmpty)

/-- Parse a sequence of `[[service]]` blocks, each with its `name` and `exec`
keys (either order). -/
def parseServicesLines : List (List Char) → Option (List Service)
  | [] => some []
  | l :: n :: e :: rest =>
    if l = "[[service]]".data then
      match parseKV n, parseKV e, parseServicesLines rest with
      | some (k1, v1), some (k2, v2), some tail =>
        if k1 = "name" ∧ k2 = "exec" then some (⟨v1, v2⟩ :: tail)
        else if k1 = "exec" ∧ k2 = "name" then some (⟨v2, v1⟩ :: tail)
        else none
      | _, _, _ => none
    else none
  | _ => none

/-- Modelled from the spec: `toml::from_str::<ServiceFile>` (third-party
deserializer, not in this repository) on the document subset this program
reads and writes. -/
def from_str_services (s : String) : Option ServiceFile :=
  match parseServicesLines (nonEmptyLines s) with
  | some l => some ⟨l⟩
  | none => none

/-- Parse a flat sequence of `key = "value"` lines. -/
def parseEnvsLines : List (List Char) → Option EnvsM
  | [] => some []
  | l :: rest =>
    match parseKV l, parseEnvsLines rest with
    | some kv, some tail => some (kv :: tail)
    | _, _ => none

/-- Modelled from the spec: `toml::from_str::<Envs>` on the flat key/value
document subset this program reads and writes. -/
def from_str_envs (s : String) : Option EnvsM :=
  parseEnvsLines (nonEmptyLines s)

/-- The serialized default `services` document written on first run. -/
def servicesDefaultToml : String := toml_to_string_services ServiceFile.default

/-- The serialized default `envs` document written on first run. -/
def envsDefaultToml : String := toml_to_string_envs defaultEnvs

/-! ## Orchestration -/

/-- The model input: everything the outside world decides — the `whoami`
answer, filesystem failures, which executables exist, and the inherited
process environment. -/
structure World where
  whoamiResult : Option OsStrM
  oracle : FSOracle
  execExists : String → Bool
  inheritedEnv : String → Option String

/-- One default-file bootstrap step of `prepare`: join the directory with the
file name, try exclusive creation, and only when the file was newly created
serialize and write the default content (errors propagate with `?`). -/
def prepareOne (oracle : FSOracle) (dir tail content : String) (fs : FSState) :
    Outcome Unit × FSState :=
  match join_with_tail dir tail with
  | .err e => (.err e, fs)
  | .panic m => (.panic m, fs)
  | .ok path =>
    match file_create_new path fs with
    | (false, fs1) => (.ok (), fs1)
    | (true, fs1) => write_string oracle content path fs1

/-- The two bootstrap steps of `prepare`, `services` first, then `envs`. -/
def prepareRest (oracle : FSOracle) (dir : String) (fs : FSState) :
    Outcome Unit × FSState :=
  match prepareOne oracle dir "services" servicesDefaultToml fs with
  | (.ok _, fs1) => prepareOne oracle dir "envs" envsDefaultToml fs1
  | other => other

/-- Mirrors `prepare`: resolve the config directory, create it when absent,
then bootstrap the two default files. -/
def prepareM (w : World) (fs : FSState) : Outcome Unit × FSState :=
  match get_config_dir w.whoamiResult with
  | .err e => (.err e, fs)
  | .panic m => (.panic m, fs)
  | .ok dir =>
    if dir ∈ fs.dirs then prepareRest w.oracle dir fs
    else if w.oracle.createDirAllFails dir then (.err "IOError", fs)
    else prepareRest w.oracle dir (create_dir_all dir fs)

/-- Mirrors `fs::read_to_string`: fails when the read syscall fails or the
file does not exist, otherwise yields the file content. -/
def read_to_string (oracle : FSOracle) (path : String) (fs : FSState) :
    Outcome String :=
  if oracle.readFails path then .err "IOError"
  else
    match alookup fs.files path with
    | some d => .ok d.content
    | none => .err "ConfigReadError"

/-- Mirrors `read_to_struct::<ServiceFile>`: read then deserialize. -/
def read_services (oracle : FSOracle) (path : String) (fs : FSState) :
    Outcome ServiceFile :=
  match read_to_string oracle path fs with
  | .ok s =>
    match from_str_services s with
    | some v => .ok v
    | none => .err "ConfigParseError"
  | .err e => .err e
  | .panic m => .panic m

/-- Mirrors `read_to_struct::<Envs>`: read then deserialize. -/
def read_envs (oracle : FSOracle) (path : String) (fs : FSState) :
    Outcome EnvsM :=
  match read_to_string oracle path fs with
  | .ok s =>
    match from_str_envs s with
    | some v => .ok v
    | none => .err "ConfigParseError"
  | .err e => .err e
  | .panic m => .panic m

/-- A spawned child process as configured by `Command`: program, arguments,
explicit environment overrides, and the output redirections. -/
structure Child where
  program : String
  args : List String
  envOverrides : List (String × String)
  stdoutNull : Bool
  stderrNull : Bool
deriving DecidableEq, Repr

/-- The environment the child actually sees: the explicit overrides replace
the inherited variables on matching keys. -/
def Child.resolvedEnv (c : Child) (inherited : String → Option String)
    (k : String) : Option String :=
  match alookup c.envOverrides k with
  | some v => some v
  | none => inherited k

/-- The fixed target executable path `Command::new` receives. -/
def dwlPath : String := "/usr/local/bin/dwl"

/-- The fixed path the generated script is written to. -/
def scriptPath : String := "/tmp/dwl_service"

/-- Mirrors `init`: build the command (fixed program, the loaded environment
map, null stdout/stderr, the single `-s "/tmp/dwl_service"` argument) and
spawn it; spawning fails with `?`-propagated error when the executable does
not exist, and then no child is created. -/
def init (envs : EnvsM) (execExists : String → Bool) : Outcome Child :=
  let command : Child :=
    { program := dwlPath
      args := ["-s \"/tmp/dwl_service\""]
      envOverrides := envs
      stdoutNull := true
      stderrNull := true }
  if execExists dwlPath then .ok command else .err "SpawnError"

/-- Mirrors `main`: prepare, resolve the directory again, load the two
documents, generate the script, write it to the fixed temp path, and spawn.
Every error propagates immediately (`?`), aborting the remaining steps and
leaving the filesystem as the completed steps left it. -/
def mainModel (w : World) (fs : FSState) : Outcome Child × FSState :=
  match prepareM w fs with
  | (.err e, fs1) => (.err e, fs1)
  | (.panic m, fs1) => (.panic m, fs1)
  | (.ok _, fs1) =>
    match get_config_dir w.whoamiResult with
    | .err e => (.err e, fs1)
    | .panic m => (.panic m, fs1)
    | .ok dir =>
      match join_with_tail dir "services" with
      | .err e => (.err e, fs1)
      | .panic m => (.panic m, fs1)
      | .ok spath =>
        match read_services w.oracle spath fs1 with
        | .err e => (.err e, fs1)
        | .panic m => (.panic m, fs1)
        | .ok services =>
          match join_with_tail dir "envs" with
          | .err e => (.err e, fs1)
          | .panic m => (.panic m, fs1)
          | .ok epath =>
            match read_envs w.oracle epath fs1 with
            | .err e => (.err e, fs1)
            | .panic m => (.panic m, fs1)
            | .ok envs =>
              match write_string w.oracle (generate_script services) scriptPath fs1 with
              | (.err e, fs2) => (.err e, fs2)
              | (.panic m, fs2) => (.panic m, fs2)
              | (.ok _, fs2) =>
                match init envs w.execExists with
                | .ok child => (.ok child, fs2)
                | .err e => (.err e, fs2)
                | .panic m => (.panic m, fs2)

/-- The empty filesystem. -/
def emptyFS : FSState := { dirs := [], files := [] }

/-- A concrete fully-working world used to exercise the pipeline. -/
def exampleWorld : World :=
  { whoamiResult := some ⟨some "alice"⟩
    oracle := noFailOracle
    execExists := fun _ => true
    inheritedEnv := fun _ => none }

/-! ## Supporting lemmas -/

theorem alookup_eraseKey {α : Type} (l : List (String × α)) (p q : String) :
    alookup (eraseKey l p) q = if q = p then none else alookup l q := by
  induction l with
  | nil => simp [eraseKey, alookup]
  | cons kv rest ih =>
    obtain ⟨k, v⟩ := kv
    simp only [eraseKey, alookup]
    by_cases hk : k = p
    · rw [if_pos hk, ih]
      by_cases hq : q = p
      · rw [if_pos hq, if_pos hq]
      · rw [if_neg hq, if_neg hq, if_neg (fun h : k = q => hq (h ▸ hk))]
    · rw [if_neg hk]
      simp only [alookup]
      by_cases hkq : k = q
      · have hq : ¬ q = p := fun h => hk (hkq.trans h)
        rw [if_pos hkq, if_neg hq, if_pos hkq]
      · rw [if_neg hkq, ih]
        by_cases hq : q = p
        · rw [if_pos hq, if_pos hq]
        · rw [if_neg hq, if_neg hq, if_neg hkq]

theorem alookup_setFile_self (path : String) (d : FileData) (fs : FSState) :
    alookup (setFile path d fs).files path = some d := by
  simp [setFile, alookup]

theorem alookup_setFile_other (path q : String) (d : FileData) (fs : FSState)
    (h : q ≠ path) :
    alookup (setFile path d fs).files q = alookup fs.files q := by
  simp [setFile, alookup, alookup_eraseKey, h, Ne.symm h]

theorem setFile_dirs (path : String) (d : FileData) (fs : FSState) :
    (setFile path d fs).dirs = fs.dirs := rfl

theorem mem_addDir (d x : String) (ds : List String) :
    x ∈ addDir d ds ↔ x ∈ ds ∨ x = d := by
  by_cases h : d ∈ ds <;> simp [addDir, h]
  intro hx
  rw [hx]
  exact h

theorem mem_foldl_addDir (l : List String) (ds : List String) (x : String) :
    x ∈ l.foldl (fun acc d => addDir d acc) ds ↔ x ∈ ds ∨ x ∈ l := by
  induction l generalizing ds with
  | nil => simp
  | cons d rest ih =>
    simp only [List.foldl]
    rw [ih, mem_addDir]
    simp only [List.mem_cons]
    tauto

theorem foldl_addDir_of_subset (l : List String) (ds : List String)
    (h : ∀ d ∈ l, d ∈ ds) :
    l.foldl (fun acc d => addDir d acc) ds = ds := by
  induction l with
  | nil => rfl
  | cons d rest ih =>
    have hd : d ∈ ds := h d (List.mem_cons_self d rest)
    simp only [List.foldl, addDir, if_pos hd]
    exact ih (fun x hx => h x (List.mem_cons_of_mem d hx))

theorem create_dir_all_files (p : String) (fs : FSState) :
    (create_dir_all p fs).files = fs.files := rfl

theorem mem_create_dir_all (p x : String) (fs : FSState) :
    x ∈ (create_dir_all p fs).dirs ↔ x ∈ fs.dirs ∨ x ∈ dirsOf p := by
  simp [create_dir_all, mem_foldl_addDir]

theorem self_mem_dirsOf (p : String) : p ∈ dirsOf p := by
  simp [dirsOf]

theorem create_dir_all_stable (p : String) (fs : FSState)
    (h : ∀ d ∈ dirsOf p, d ∈ fs.dirs) :
    create_dir_all p fs = fs := by
  simp [create_dir_all, foldl_addDir_of_subset _ _ h]

theorem create_dir_all_idem (p : String) (fs : FSState) :
    create_dir_all p (create_dir_all p fs) = create_dir_all p fs := by
  apply create_dir_all_stable
  intro d hd
  exact (mem_create_dir_all p d fs).mpr (Or.inr hd)

theorem foldl_serviceBlock (l : List Service) (acc : String) :
    l.foldl (fun string s => string ++ "# " ++ s.name ++ "\n" ++ s.exec ++ " &\n") acc
      = acc ++ joinStrings (l.map serviceBlock) := by
  induction l generalizing acc with
  | nil => simp [joinStrings]
  | cons s rest ih =>
    simp only [List.foldl, List.map, joinStrings, ih, serviceBlock]
    simp [String.append_assoc]


theorem write_string_files_other (oracle : FSOracle) (s path q : String)
    (fs : FSState) (h : q ≠ path) :
    alookup ((write_string oracle s path fs).2).files q = alookup fs.files q := by
  unfold write_string
  split
  · rfl
  · rfl
  · split
    · rfl
    · split
      · simp [create_dir_all_files]
      · split
        · simp [alookup_setFile_other, h, create_dir_all_files]
        · split
          · simp [alookup_setFile_other, h, create_dir_all_files]
          · simp [alookup_setFile_other, h, create_dir_all_files]

theorem write_string_ok_content (oracle : FSOracle) (s path : String)
    (fs : FSState) (h : (write_string oracle s path fs).1 = .ok ()) :
    alookup ((write_string oracle s path fs).2).files path =
      some ⟨s, 0o744⟩ := by
  unfold write_string at h ⊢
  split at h
  · cases h
  · cases h
  · rename_i parent hp
    split at h
    · cases h
    · rename_i h1
      split at h
      · cases h
      · rename_i h2
        split at h
        · cases h
        · rename_i h3
          split at h
          · cases h
          · rename_i h4
            simp only [hp, if_neg h1, if_neg h2, if_neg h3, if_neg h4]
            simp [alookup_setFile_self]

theorem write_string_dirs_mono (oracle : FSOracle) (s path d : String)
    (fs : FSState) (h : d ∈ fs.dirs) :
    d ∈ ((write_string oracle s path fs).2).dirs := by
  unfold write_string
  split
  · exact h
  · exact h
  · rename_i parent hp
    have h1 : d ∈ (create_dir_all parent fs).dirs :=
      (mem_create_dir_all parent d fs).mpr (Or.inl h)
    split
    · exact h
    · split
      · exact h1
      · split
        · exact h1
        · split
          · exact h1
          · exact h1

theorem write_string_ok_dirs (oracle : FSOracle) (s path parent : String)
    (fs : FSState) (hp : directory_of path = .ok parent)
    (h : (write_string oracle s path fs).1 = .ok ()) :
    ∀ d ∈ dirsOf parent, d ∈ ((write_string oracle s path fs).2).dirs := by
  intro d hd
  unfold write_string at h ⊢
  simp only [hp] at h ⊢
  split at h
  · cases h
  · rename_i h1
    split at h
    · cases h
    · rename_i h2
      split at h
      · cases h
      · rename_i h3
        split at h
        · cases h
        · rename_i h4
          simp only [if_neg h1, if_neg h2, if_neg h3, if_neg h4]
          show d ∈ (setFile _ _ _).dirs
          rw [setFile_dirs, setFile_dirs, setFile_dirs]
          exact (mem_create_dir_all parent d fs).mpr (Or.inr hd)

theorem write_string_presence (oracle : FSOracle) (s path q : String)
    (fs : FSState) (h : (alookup fs.files q).isSome = true) :
    (alookup ((write_string oracle s path fs).2).files q).isSome = true := by
  by_cases hq : q = path
  · subst hq
    unfold write_string
    split
    · exact h
    · exact h
    · rename_i parent hp
      have h1 : alookup (create_dir_all parent fs).files q = alookup fs.files q := by
        rw [create_dir_all_files]
      split
      · exact h
      · split
        · rw [h1]; exact h
        · split
          · simp [alookup_setFile_self]
          · split
            · simp [alookup_setFile_self]
            · simp [alookup_setFile_self]
  · rw [write_string_files_other oracle s path q fs hq]
    exact h

theorem write_string_err_strings (oracle : FSOracle) (s path : String)
    (fs : FSState) (e : String)
    (h : (write_string oracle s path fs).1 = .err e) :
    e = "Cannot get parent directory" ∨ e = "IOError" := by
  unfold write_string at h
  split at h
  · rename_i e2 he
    unfold directory_of at he
    split at he
    · cases he
      cases h
      exact Or.inl rfl
    · cases he
  · cases h
  · split at h
    · cases h; exact Or.inr rfl
    · split at h
      · cases h; exact Or.inr rfl
      · split at h
        · cases h; exact Or.inr rfl
        · split at h
          · cases h; exact Or.inr rfl
          · cases h

theorem write_string_no_panic (oracle : FSOracle) (s path m : String)
    (fs : FSState) :
    (write_string oracle s path fs).1 ≠ .panic m := by
  unfold write_string
  split
  · simp
  · rename_i m2 he
    unfold directory_of at he
    split at he <;> cases he
  · split
    · simp
    · split
      · simp
      · split
        · simp
        · split
          · simp
          · simp

theorem string_data_append (a b : String) : (a ++ b).data = a.data ++ b.data := by
  cases a
  cases b
  rfl

theorem append_tail_ne (dir a b : String) (hab : a.data ≠ b.data) :
    dir ++ a ≠ dir ++ b := by
  intro h
  apply hab
  have h2 := congrArg String.data h
  rw [string_data_append, string_data_append] at h2
  exact List.append_cancel_left h2

theorem join_with_tail_err (root tail e : String)
    (h : join_with_tail root tail = .err e) : e = "JoinPathsError" := by
  unfold join_with_tail join_paths at h
  split at h
  · cases h; rfl
  · cases h

theorem join_with_tail_ok (root tail p : String)
    (h : join_with_tail root tail = .ok p) : p = root ++ ":" ++ tail := by
  unfold join_with_tail join_paths at h
  split at h
  · cases h
  · cases h
    rfl

theorem join_with_tail_no_panic (root tail m : String) :
    join_with_tail root tail ≠ .panic m := by
  unfold join_with_tail join_paths
  split <;> simp


theorem prepareOne_join_err (oracle : FSOracle) (dir tail content e : String)
    (fs : FSState) (hj : join_with_tail dir tail = .err e) :
    prepareOne oracle dir tail content fs = (.err e, fs) := by
  unfold prepareOne
  simp only [hj]

theorem prepareOne_exists (oracle : FSOracle) (dir tail content path : String)
    (fs : FSState) (d : FileData)
    (hj : join_with_tail dir tail = .ok path)
    (hex : alookup fs.files path = some d) :
    prepareOne oracle dir tail content fs = (.ok (), fs) := by
  unfold prepareOne file_create_new
  simp only [hj, hex]

theorem prepareOne_absent (oracle : FSOracle) (dir tail content path : String)
    (fs : FSState)
    (hj : join_with_tail dir tail = .ok path)
    (habs : alookup fs.files path = none) :
    prepareOne oracle dir tail content fs =
      write_string oracle content path (setFile path ⟨"", 0o644⟩ fs) := by
  unfold prepareOne file_create_new
  simp only [hj, habs]

theorem prepareOne_no_overwrite (oracle : FSOracle) (dir tail content : String)
    (fs : FSState) (p : String) (d : FileData)
    (h : alookup fs.files p = some d) :
    alookup ((prepareOne oracle dir tail content fs).2).files p = some d := by
  cases hj : join_with_tail dir tail with
  | err e => rw [prepareOne_join_err oracle dir tail content e fs hj]; exact h
  | panic m => exact absurd hj (join_with_tail_no_panic dir tail m)
  | ok path =>
    cases hex : alookup fs.files path with
    | some d2 =>
      rw [prepareOne_exists oracle dir tail content path fs d2 hj hex]
      exact h
    | none =>
      have hne : p ≠ path := by
        intro hpp
        rw [hpp, hex] at h
        cases h
      rw [prepareOne_absent oracle dir tail content path fs hj hex]
      rw [write_string_files_other _ _ _ _ _ hne]
      rw [alookup_setFile_other _ _ _ _ hne]
      exact h

theorem prepareOne_dirs_mono (oracle : FSOracle) (dir tail content d : String)
    (fs : FSState) (h : d ∈ fs.dirs) :
    d ∈ ((prepareOne oracle dir tail content fs).2).dirs := by
  cases hj : join_with_tail dir tail with
  | err e => rw [prepareOne_join_err oracle dir tail content e fs hj]; exact h
  | panic m => exact absurd hj (join_with_tail_no_panic dir tail m)
  | ok path =>
    cases hex : alookup fs.files path with
    | some d2 =>
      rw [prepareOne_exists oracle dir tail content path fs d2 hj hex]
      exact h
    | none =>
      rw [prepareOne_absent oracle dir tail content path fs hj hex]
      exact write_string_dirs_mono _ _ _ _ _ h

theorem prepareOne_ok_present (oracle : FSOracle) (dir tail content path : String)
    (fs : FSState)
    (hj : join_with_tail dir tail = .ok path)
    (h : (prepareOne oracle dir tail content fs).1 = .ok ()) :
    (alookup ((prepareOne oracle dir tail content fs).2).files path).isSome = true := by
  cases hex : alookup fs.files path with
  | some d2 =>
    rw [prepareOne_exists oracle dir tail content path fs d2 hj hex]
    simp [hex]
  | none =>
    rw [prepareOne_absent oracle dir tail content path fs hj hex] at h ⊢
    rw [write_string_ok_content _ _ _ _ h]
    rfl

theorem prepareOne_created_content (oracle : FSOracle) (dir tail content path : String)
    (fs : FSState)
    (hj : join_with_tail dir tail = .ok path)
    (habs : alookup fs.files path = none)
    (h : (prepareOne oracle dir tail content fs).1 = .ok ()) :
    alookup ((prepareOne oracle dir tail content fs).2).files path =
      some ⟨content, 0o744⟩ := by
  rw [prepareOne_absent oracle dir tail content path fs hj habs] at h ⊢
  exact write_string_ok_content _ _ _ _ h

theorem prepareOne_err_strings (oracle : FSOracle) (dir tail content e : String)
    (fs : FSState)
    (h : (prepareOne oracle dir tail content fs).1 = .err e) :
    e = "JoinPathsError" ∨ e = "Cannot get parent directory" ∨ e = "IOError" := by
  cases hj : join_with_tail dir tail with
  | err e2 =>
    rw [prepareOne_join_err oracle dir tail content e2 fs hj] at h
    injection h with h2
    subst h2
    exact Or.inl (join_with_tail_err dir tail _ hj)
  | panic m => exact absurd hj (join_with_tail_no_panic dir tail m)
  | ok path =>
    cases hex : alookup fs.files path with
    | some d2 =>
      rw [prepareOne_exists oracle dir tail content path fs d2 hj hex] at h
      cases h
    | none =>
      rw [prepareOne_absent oracle dir tail content path fs hj hex] at h
      exact Or.inr (write_string_err_strings _ _ _ _ _ h)

theorem prepareOne_no_panic (oracle : FSOracle) (dir tail content m : String)
    (fs : FSState) :
    (prepareOne oracle dir tail content fs).1 ≠ .panic m := by
  cases hj : join_with_tail dir tail with
  | err e2 =>
    rw [prepareOne_join_err oracle dir tail content e2 fs hj]
    simp
  | panic m2 => exact absurd hj (join_with_tail_no_panic dir tail m2)
  | ok path =>
    cases hex : alookup fs.files path with
    | some d2 =>
      rw [prepareOne_exists oracle dir tail content path fs d2 hj hex]
      simp
    | none =>
      rw [prepareOne_absent oracle dir tail content path fs hj hex]
      exact write_string_no_panic _ _ _ _ _

theorem prepareOne_files_frame (oracle : FSOracle) (dir tail content path q : String)
    (fs : FSState) (hj : join_with_tail dir tail = .ok path) (hq : q ≠ path) :
    alookup ((prepareOne oracle dir tail content fs).2).files q = alookup fs.files q := by
  cases hex : alookup fs.files path with
  | some d2 =>
    rw [prepareOne_exists oracle dir tail content path fs d2 hj hex]
  | none =>
    rw [prepareOne_absent oracle dir tail content path fs hj hex]
    rw [write_string_files_other _ _ _ _ _ hq]
    rw [alookup_setFile_other _ _ _ _ hq]

theorem prepareOne_ok_join (oracle : FSOracle) (dir tail content : String)
    (fs : FSState) (h : (prepareOne oracle dir tail content fs).1 = .ok ()) :
    join_with_tail dir tail = .ok (dir ++ ":" ++ tail) := by
  cases hj : join_with_tail dir tail with
  | err e =>
    rw [prepareOne_join_err oracle dir tail content e fs hj] at h
    cases h
  | panic m => exact absurd hj (join_with_tail_no_panic dir tail m)
  | ok path =>
    rw [join_with_tail_ok dir tail path hj]

theorem prepareRest_ok_split (oracle : FSOracle) (dir : String) (fs : FSState)
    (h : (prepareRest oracle dir fs).1 = .ok ()) :
    (prepareOne oracle dir "services" servicesDefaultToml fs).1 = .ok () ∧
    (prepareOne oracle dir "envs" envsDefaultToml
        (prepareOne oracle dir "services" servicesDefaultToml fs).2).1 = .ok () ∧
    (prepareRest oracle dir fs).2 =
      (prepareOne oracle dir "envs" envsDefaultToml
        (prepareOne oracle dir "services" servicesDefaultToml fs).2).2 := by
  unfold prepareRest at h ⊢
  split at h
  · rename_i v fs1 heq
    rw [heq]
    exact ⟨rfl, h, rfl⟩
  · rename_i heq
    exfalso
    apply heq () (prepareOne oracle dir "services" servicesDefaultToml fs).2
    have h3 : prepareOne oracle dir "services" servicesDefaultToml fs
        = ((prepareOne oracle dir "services" servicesDefaultToml fs).1,
           (prepareOne oracle dir "services" servicesDefaultToml fs).2) := rfl
    rw [h3, h]

theorem prepareRest_no_overwrite (oracle : FSOracle) (dir : String) (fs : FSState)
    (p : String) (d : FileData) (h : alookup fs.files p = some d) :
    alookup ((prepareRest oracle dir fs).2).files p = some d := by
  unfold prepareRest
  split
  · rename_i v fs1 heq
    have h1 := prepareOne_no_overwrite oracle dir "services" servicesDefaultToml fs p d h
    rw [heq] at h1
    exact prepareOne_no_overwrite oracle dir "envs" envsDefaultToml fs1 p d h1
  · exact prepareOne_no_overwrite oracle dir "services" servicesDefaultToml fs p d h

theorem prepareRest_dirs_mono (oracle : FSOracle) (dir d : String) (fs : FSState)
    (h : d ∈ fs.dirs) :
    d ∈ ((prepareRest oracle dir fs).2).dirs := by
  unfold prepareRest
  split
  · rename_i v fs1 heq
    have h1 := prepareOne_dirs_mono oracle dir "services" servicesDefaultToml d fs h
    rw [heq] at h1
    exact prepareOne_dirs_mono oracle dir "envs" envsDefaultToml d fs1 h1
  · exact prepareOne_dirs_mono oracle dir "services" servicesDefaultToml d fs h

theorem prepareRest_noop (oracle : FSOracle) (dir spath epath : String) (fs : FSState)
    (hjs : join_with_tail dir "services" = .ok spath)
    (hje : join_with_tail dir "envs" = .ok epath)
    (hs : (alookup fs.files spath).isSome = true)
    (he : (alookup fs.files epath).isSome = true) :
    prepareRest oracle dir fs = (.ok (), fs) := by
  obtain ⟨d1, hd1⟩ : ∃ d, alookup fs.files spath = some d := by
    cases hx : alookup fs.files spath with
    | none => rw [hx] at hs; cases hs
    | some d => exact ⟨d, rfl⟩
  obtain ⟨d2, hd2⟩ : ∃ d, alookup fs.files epath = some d := by
    cases hx : alookup fs.files epath with
    | none => rw [hx] at he; cases he
    | some d => exact ⟨d, rfl⟩
  unfold prepareRest
  simp only [prepareOne_exists oracle dir "services" servicesDefaultToml spath fs d1 hjs hd1]
  exact prepareOne_exists oracle dir "envs" envsDefaultToml epath fs d2 hje hd2

theorem isSome_exists {α : Type} (o : Option α) (h : o.isSome = true) :
    ∃ d, o = some d := by
  cases o with
  | none => cases h
  | some d => exact ⟨d, rfl⟩

theorem services_tail_ne_envs (dir : String) :
    dir ++ ":" ++ "services" ≠ dir ++ ":" ++ "envs" := by
  have hd : ("services" : String).data ≠ ("envs" : String).data := by decide
  exact append_tail_ne (dir ++ ":") "services" "envs" hd

theorem prepareRest_ok_props (oracle : FSOracle) (dir : String) (fs : FSState)
    (h : (prepareRest oracle dir fs).1 = .ok ()) :
    ((alookup ((prepareRest oracle dir fs).2).files (dir ++ ":" ++ "services")).isSome = true) ∧
    ((alookup ((prepareRest oracle dir fs).2).files (dir ++ ":" ++ "envs")).isSome = true) ∧
    (alookup fs.files (dir ++ ":" ++ "services") = none →
      alookup ((prepareRest oracle dir fs).2).files (dir ++ ":" ++ "services") =
        some ⟨servicesDefaultToml, 0o744⟩) ∧
    (alookup fs.files (dir ++ ":" ++ "envs") = none →
      alookup ((prepareRest oracle dir fs).2).files (dir ++ ":" ++ "envs") =
        some ⟨envsDefaultToml, 0o744⟩) := by
  obtain ⟨hs, he, hst⟩ := prepareRest_ok_split oracle dir fs h
  have hjs := prepareOne_ok_join oracle dir "services" servicesDefaultToml fs hs
  have hje := prepareOne_ok_join oracle dir "envs" envsDefaultToml
    (prepareOne oracle dir "services" servicesDefaultToml fs).2 he
  have hne := services_tail_ne_envs dir
  rw [hst]
  refine ⟨?_, ?_, ?_, ?_⟩
  · have h1 := prepareOne_ok_present oracle dir "services" servicesDefaultToml
      (dir ++ ":" ++ "services") fs hjs hs
    obtain ⟨d, hd2⟩ := isSome_exists _ h1
    rw [prepareOne_no_overwrite oracle dir "envs" envsDefaultToml
      (prepareOne oracle dir "services" servicesDefaultToml fs).2 _ d hd2]
    rfl
  · exact prepareOne_ok_present oracle dir "envs" envsDefaultToml
      (dir ++ ":" ++ "envs") _ hje he
  · intro habs
    have h1 := prepareOne_created_content oracle dir "services" servicesDefaultToml
      (dir ++ ":" ++ "services") fs hjs habs hs
    exact prepareOne_no_overwrite oracle dir "envs" envsDefaultToml
      (prepareOne oracle dir "services" servicesDefaultToml fs).2 _ _ h1
  · intro habs
    have h1 : alookup ((prepareOne oracle dir "services" servicesDefaultToml fs).2).files
        (dir ++ ":" ++ "envs") = none := by
      rw [prepareOne_files_frame oracle dir "services" servicesDefaultToml
        (dir ++ ":" ++ "services") (dir ++ ":" ++ "envs") fs hjs (Ne.symm hne)]
      exact habs
    exact prepareOne_created_content oracle dir "envs" envsDefaultToml
      (dir ++ ":" ++ "envs") _ hje h1 he

theorem prepareRest_changed_mode (oracle : FSOracle) (dir : String) (fs : FSState)
    (h : (prepareRest oracle dir fs).1 = .ok ()) (p : String)
    (hchanged : alookup ((prepareRest oracle dir fs).2).files p ≠ alookup fs.files p) :
    ∃ c, alookup ((prepareRest oracle dir fs).2).files p = some ⟨c, 0o744⟩ := by
  obtain ⟨hs, he, hst⟩ := prepareRest_ok_split oracle dir fs h
  have hjs := prepareOne_ok_join oracle dir "services" servicesDefaultToml fs hs
  have hje := prepareOne_ok_join oracle dir "envs" envsDefaultToml
    (prepareOne oracle dir "services" servicesDefaultToml fs).2 he
  have hne := services_tail_ne_envs dir
  obtain ⟨hpres_s, hpres_e, hcre_s, hcre_e⟩ := prepareRest_ok_props oracle dir fs h
  by_cases hp1 : p = dir ++ ":" ++ "services"
  · subst hp1
    cases hex : alookup fs.files (dir ++ ":" ++ "services") with
    | none => exact ⟨servicesDefaultToml, hcre_s hex⟩
    | some d =>
      exfalso
      apply hchanged
      rw [hex]
      rw [hst]
      have h1 := prepareOne_no_overwrite oracle dir "services" servicesDefaultToml fs _ d hex
      exact prepareOne_no_overwrite oracle dir "envs" envsDefaultToml
        (prepareOne oracle dir "services" servicesDefaultToml fs).2 _ d h1
  · by_cases hp2 : p = dir ++ ":" ++ "envs"
    · subst hp2
      cases hex : alookup fs.files (dir ++ ":" ++ "envs") with
      | none => exact ⟨envsDefaultToml, hcre_e hex⟩
      | some d =>
        exfalso
        apply hchanged
        rw [hex]
        rw [hst]
        have h1 := prepareOne_no_overwrite oracle dir "services" servicesDefaultToml fs _ d hex
        exact prepareOne_no_overwrite oracle dir "envs" envsDefaultToml
          (prepareOne oracle dir "services" servicesDefaultToml fs).2 _ d h1
    · exfalso
      apply hchanged
      rw [hst]
      rw [prepareOne_files_frame oracle dir "envs" envsDefaultToml
        (dir ++ ":" ++ "envs") p _ hje hp2]
      rw [prepareOne_files_frame oracle dir "services" servicesDefaultToml
        (dir ++ ":" ++ "services") p fs hjs hp1]

theorem prepareM_ok_dir (w : World) (fs : FSState)
    (h : (prepareM w fs).1 = .ok ()) :
    ∃ dir, get_config_dir w.whoamiResult = .ok dir := by
  unfold prepareM at h
  cases hg : get_config_dir w.whoamiResult with
  | ok dir => exact ⟨dir, rfl⟩
  | err e =>
    rw [hg] at h
    cases h
  | panic m =>
    rw [hg] at h
    cases h

theorem prepareM_core (w : World) (fs fs0 : FSState) (dir : String)
    (hg : get_config_dir w.whoamiResult = .ok dir)
    (heq : prepareM w fs = prepareRest w.oracle dir fs0)
    (hfiles : fs0.files = fs.files)
    (hdir0 : dir ∈ fs0.dirs)
    (h : (prepareM w fs).1 = .ok ()) :
    (∀ p d, alookup fs.files p = some d →
        alookup ((prepareM w fs).2).files p = some d) ∧
    prepareM w ((prepareM w fs).2) = (.ok (), (prepareM w fs).2) ∧
    (∀ dir2, get_config_dir w.whoamiResult = .ok dir2 →
        alookup fs.files (dir2 ++ ":" ++ "services") = none →
        alookup ((prepareM w fs).2).files (dir2 ++ ":" ++ "services") =
          some ⟨servicesDefaultToml, 0o744⟩) ∧
    (∀ dir2, get_config_dir w.whoamiResult = .ok dir2 →
        alookup fs.files (dir2 ++ ":" ++ "envs") = none →
        alookup ((prepareM w fs).2).files (dir2 ++ ":" ++ "envs") =
          some ⟨envsDefaultToml, 0o744⟩) := by
  rw [heq] at h
  obtain ⟨hs, he, hst⟩ := prepareRest_ok_split w.oracle dir fs0 h
  have hjs := prepareOne_ok_join w.oracle dir "services" servicesDefaultToml fs0 hs
  have hje := prepareOne_ok_join w.oracle dir "envs" envsDefaultToml
    (prepareOne w.oracle dir "services" servicesDefaultToml fs0).2 he
  obtain ⟨hpres_s, hpres_e, hcre_s, hcre_e⟩ := prepareRest_ok_props w.oracle dir fs0 h
  refine ⟨?_, ?_, ?_, ?_⟩
  · intro p d hpd
    rw [heq]
    exact prepareRest_no_overwrite w.oracle dir fs0 p d (by rw [hfiles]; exact hpd)
  · have hdirF : dir ∈ ((prepareM w fs).2).dirs := by
      rw [heq]
      exact prepareRest_dirs_mono w.oracle dir dir fs0 hdir0
    have hpsF : (alookup ((prepareM w fs).2).files
        (dir ++ ":" ++ "services")).isSome = true := by
      rw [heq]; exact hpres_s
    have hpeF : (alookup ((prepareM w fs).2).files
        (dir ++ ":" ++ "envs")).isSome = true := by
      rw [heq]; exact hpres_e
    generalize hF : (prepareM w fs).2 = fsF
    rw [hF] at hdirF hpsF hpeF
    have hsecond : prepareM w fsF = prepareRest w.oracle dir fsF := by
      unfold prepareM
      simp only [hg]
      rw [if_pos hdirF]
    rw [hsecond]
    exact prepareRest_noop w.oracle dir (dir ++ ":" ++ "services")
      (dir ++ ":" ++ "envs") fsF hjs hje hpsF hpeF
  · intro dir2 hg2 habs
    rw [hg] at hg2
    injection hg2 with hdd
    subst hdd
    rw [heq]
    exact hcre_s (by rw [hfiles]; exact habs)
  · intro dir2 hg2 habs
    rw [hg] at hg2
    injection hg2 with hdd
    subst hdd
    rw [heq]
    exact hcre_e (by rw [hfiles]; exact habs)

/-- C4: the default-file bootstrap `prepare` never overwrites an existing
config file, creates each missing one (exclusive create) with its serialized
default content and mode `0o744`, and a second run on the resulting state is
a strict no-op, so both config files are byte-identical after two runs. -/
theorem prepare_bootstrap_idempotent (w : World) (fs : FSState)
    (h : (prepareM w fs).1 = .ok ()) :
    (∀ p d, alookup fs.files p = some d →
        alookup ((prepareM w fs).2).files p = some d) ∧
    prepareM w ((prepareM w fs).2) = (.ok (), (prepareM w fs).2) ∧
    (∀ dir, get_config_dir w.whoamiResult = .ok dir →
        alookup fs.files (dir ++ ":" ++ "services") = none →
        alookup ((prepareM w fs).2).files (dir ++ ":" ++ "services") =
          some ⟨servicesDefaultToml, 0o744⟩) ∧
    (∀ dir, get_config_dir w.whoamiResult = .ok dir →
        alookup fs.files (dir ++ ":" ++ "envs") = none →
        alookup ((prepareM w fs).2).files (dir ++ ":" ++ "envs") =
          some ⟨envsDefaultToml, 0o744⟩) := by
  obtain ⟨dir, hg⟩ := prepareM_ok_dir w fs h
  by_cases hdir : dir ∈ fs.dirs
  · refine prepareM_core w fs fs dir hg ?_ rfl hdir h
    unfold prepareM
    simp only [hg]
    rw [if_pos hdir]
  · by_cases hioe : w.oracle.createDirAllFails dir = true
    · exfalso
      unfold prepareM at h
      simp only [hg] at h
      rw [if_neg hdir, if_pos hioe] at h
      cases h
    · refine prepareM_core w fs (create_dir_all dir fs) dir hg ?_
        (create_dir_all_files dir fs) ?_ h
      · unfold prepareM
        simp only [hg]
        rw [if_neg hdir, if_neg hioe]
      · exact (mem_create_dir_all dir dir fs).mpr (Or.inr (self_mem_dirsOf dir))

/-- C4 witness: a concrete first run on the empty filesystem succeeds, and
running the bootstrap again on its result changes nothing. -/
theorem prepare_bootstrap_idempotent_witness :
    prepareM exampleWorld ((prepareM exampleWorld emptyFS).2) =
      (.ok (), (prepareM exampleWorld emptyFS).2) :=
  (prepare_bootstrap_idempotent exampleWorld emptyFS (by decide)).2.1

/-! ## Claim theorems -/

/-- C1: `generate_script` preserves input order and emits, after the shebang
and blank line, exactly one `# <name>` line followed by one `<exec> &` line
per entry, in sequence; in particular the two-service example produces
exactly the specified text. -/
theorem generate_script_order_and_shape (sf : ServiceFile) :
    generate_script sf =
      "#!/bin/bash\n\n" ++ joinStrings (sf.service.map serviceBlock) ∧
    generate_script ⟨[⟨"A", "echo 1"⟩, ⟨"B", "echo 2"⟩]⟩ =
      "#!/bin/bash\n\n# A\necho 1 &\n# B\necho 2 &\n" :=
  ⟨foldl_serviceBlock sf.service "#!/bin/bash\n\n", by decide⟩

/-- C2: on the empty service list `generate_script` returns exactly the
shebang line followed by a single blank line and nothing else. -/
theorem generate_script_empty : generate_script ⟨[]⟩ = "#!/bin/bash\n\n" := rfl

/-- C3: evaluating the config-path computation of the code at a concrete
username shows the two documents are NOT placed at `<config-dir>/services`:
`join_with_tail` goes through `std::env::join_paths`, which joins with the
`PATH` separator `:`, so the computed path is
`/home/alice/.config/dwl-launcher:services` — a sibling entry of the config
directory, not a file inside it. -/
theorem join_with_tail_uses_colon_separator :
    join_with_tail "/home/alice/.config/dwl-launcher" "services" =
      .ok "/home/alice/.config/dwl-launcher:services" ∧
    "/home/alice/.config/dwl-launcher:services" ≠
      "/home/alice/.config/dwl-launcher/services" := by
  constructor
  · decide
  · decide

/-- C5: `write_string` propagates a missing parent as the error of
`directory_of`; otherwise it creates the parent directory chain
(recursively and idempotently), leaves the target file with exactly the
written string (verbatim, no added newline) and permission mode `0o744`,
touches no other file, and any injected filesystem failure surfaces as a
returned error. -/
theorem write_string_spec (oracle : FSOracle) (s path : String) (fs : FSState) :
    (∀ e, directory_of path = .err e →
      write_string oracle s path fs = (.err e, fs)) ∧
    (∀ parent, directory_of path = .ok parent →
      ((write_string oracle s path fs).1 = .ok () →
        (∀ d ∈ dirsOf parent, d ∈ ((write_string oracle s path fs).2).dirs) ∧
        alookup ((write_string oracle s path fs).2).files path = some ⟨s, 0o744⟩ ∧
        (∀ q, q ≠ path →
          alookup ((write_string oracle s path fs).2).files q = alookup fs.files q)) ∧
      create_dir_all parent (create_dir_all parent fs) = create_dir_all parent fs ∧
      ((oracle.createDirAllFails parent = true ∨ oracle.createFails path = true ∨
        oracle.writeFails path = true ∨ oracle.setPermFails path = true) →
        (write_string oracle s path fs).1.isErr = true)) := by
  constructor
  · intro e he
    unfold write_string
    simp only [he]
  · intro parent hp
    refine ⟨?_, create_dir_all_idem parent fs, ?_⟩
    · intro hok
      exact ⟨write_string_ok_dirs oracle s path parent fs hp hok,
        write_string_ok_content oracle s path fs hok,
        fun q hq => write_string_files_other oracle s path q fs hq⟩
    · intro hfail
      unfold write_string
      simp only [hp]
      by_cases f1 : oracle.createDirAllFails parent = true
      · rw [if_pos f1]; rfl
      · rw [if_neg f1]
        by_cases f2 : oracle.createFails path = true
        · rw [if_pos f2]; rfl
        · rw [if_neg f2]
          by_cases f3 : oracle.writeFails path = true
          · rw [if_pos f3]; rfl
          · rw [if_neg f3]
            by_cases f4 : oracle.setPermFails path = true
            · rw [if_pos f4]; rfl
            · rcases hfail with hf | hf | hf | hf
              · exact absurd hf f1
              · exact absurd hf f2
              · exact absurd hf f3
              · exact absurd hf f4

/-- C5 witness: writing a concrete string to a path whose parent chain does
not yet exist succeeds and leaves exactly the string with mode `0o744`. -/
theorem write_string_spec_witness :
    alookup ((write_string noFailOracle "hello" "/a/b/c" emptyFS).2).files "/a/b/c" =
      some ⟨"hello", 0o744⟩ :=
  ((((write_string_spec noFailOracle "hello" "/a/b/c" emptyFS).2 "/a/b"
    (by decide)).1) (by decide)).2.1

/-- C6 counterexample: when the username cannot be determined at all
(`whoami()` yields nothing), `get_config_dir` panics via `expect` instead of
returning an error, so the claim that this case surfaces as a returned
`UserResolutionError` is false. -/
theorem get_config_dir_unknown_user_not_an_error :
    get_config_dir none = .panic "Cannot get username" ∧
    (get_config_dir none).isErr = false :=
  ⟨rfl, rfl⟩

/-- C6 amended: config-directory resolution returns a user-resolution error
only when the username exists but is not representable as a plain string;
when the username cannot be determined at all the code panics (aborts)
rather than returning an error, and on success it yields the fixed per-user
path. -/
theorem get_config_dir_error_cases (whoamiResult : Option OsStrM) :
    (whoamiResult = none →
      get_config_dir whoamiResult = .panic "Cannot get username") ∧
    (∀ u, whoamiResult = some u → u.toStr = none →
      get_config_dir whoamiResult = .err "Cannot translate username") ∧
    (∀ u s, whoamiResult = some u → u.toStr = some s →
      get_config_dir whoamiResult = .ok ("/home/" ++ s ++ "/.config/dwl-launcher")) := by
  refine ⟨?_, ?_, ?_⟩
  · intro h
    subst h
    rfl
  · intro u h hts
    subst h
    unfold get_config_dir
    simp [hts]
  · intro u s h hts
    subst h
    unfold get_config_dir
    simp [hts]

/-- C6 witness: a username that exists but is not valid UTF-8 produces the
returned translation error. -/
theorem get_config_dir_error_cases_witness :
    get_config_dir (some ⟨none⟩) = .err "Cannot translate username" :=
  (get_config_dir_error_cases (some ⟨none⟩)).2.1 ⟨none⟩ rfl rfl

/-- C7: `init` spawns the fixed executable with the loaded environment map
overriding the inherited environment on matching keys, null stdout/stderr,
and a single argument referencing the generated script path; when the target
executable does not exist it fails with the spawn error and no child is
created. -/
theorem init_spec (envs : EnvsM) (execExists : String → Bool)
    (inherited : String → Option String) :
    (∀ child, init envs execExists = .ok child →
      child.program = dwlPath ∧
      child.args = ["-s \"" ++ scriptPath ++ "\""] ∧
      child.args.length = 1 ∧
      child.stdoutNull = true ∧
      child.stderrNull = true ∧
      (∀ k v, alookup envs k = some v → child.resolvedEnv inherited k = some v) ∧
      (∀ k, alookup envs k = none → child.resolvedEnv inherited k = inherited k)) ∧
    (execExists dwlPath = false → init envs execExists = .err "SpawnError") := by
  constructor
  · intro child hc
    unfold init at hc
    by_cases hex : execExists dwlPath = true
    · rw [if_pos hex] at hc
      injection hc with hc2
      subst hc2
      refine ⟨rfl, rfl, rfl, rfl, rfl, ?_, ?_⟩
      · intro k v hk
        unfold Child.resolvedEnv
        simp only [hk]
      · intro k hk
        unfold Child.resolvedEnv
        simp only [hk]
    · rw [if_neg hex] at hc
      cases hc
  · intro hex
    unfold init
    rw [if_neg (by rw [hex]; simp)]

/-- C7 witness: with a world in which no executable exists, spawning fails
with the spawn error (and hence no child value is produced). -/
theorem init_spec_witness :
    init defaultEnvs (fun _ => false) = .err "SpawnError" :=
  (init_spec defaultEnvs (fun _ => false) (fun _ => none)).2 rfl

/-- C9: serializing the default `ServiceFile` document and the default
`Envs` document to the config format and deserializing the result yields
values equal to the originals. -/
theorem default_documents_roundtrip :
    from_str_services (toml_to_string_services ServiceFile.default) =
      some ServiceFile.default ∧
    from_str_envs (toml_to_string_envs defaultEnvs) = some defaultEnvs := by
  constructor
  · decide
  · decide

theorem init_ok_exec (envs : EnvsM) (execExists : String → Bool) (c : Child)
    (h : init envs execExists = .ok c) : execExists dwlPath = true := by
  unfold init at h
  by_cases hex : execExists dwlPath = true
  · exact hex
  · rw [if_neg hex] at h
    cases h

theorem mainModel_prepare_err (w : World) (fs : FSState) (e : String)
    (fs1 : FSState) (h : prepareM w fs = (.err e, fs1)) :
    mainModel w fs = (.err e, fs1) := by
  unfold mainModel
  simp only [h]

theorem mainModel_prepare_panic (w : World) (fs : FSState) (m : String)
    (fs1 : FSState) (h : prepareM w fs = (.panic m, fs1)) :
    mainModel w fs = (.panic m, fs1) := by
  unfold mainModel
  simp only [h]

theorem mainModel_ok_decompose (w : World) (fs : FSState) (child : Child)
    (h : (mainModel w fs).1 = .ok child) :
    (prepareM w fs).1 = .ok () ∧
    w.execExists dwlPath = true ∧
    (∃ envs, init envs w.execExists = .ok child) ∧
    ∃ services : ServiceFile,
      (write_string w.oracle (generate_script services) scriptPath
          ((prepareM w fs).2)).1 = .ok () ∧
      (mainModel w fs).2 =
        (write_string w.oracle (generate_script services) scriptPath
          ((prepareM w fs).2)).2 := by
  unfold mainModel at h
  split at h
  · cases h
  · cases h
  · rename_i u fs1 hprep
    split at h
    · cases h
    · cases h
    · rename_i dir hg
      split at h
      · cases h
      · cases h
      · rename_i spath hjs
        split at h
        · cases h
        · cases h
        · rename_i services hrs
          split at h
          · cases h
          · cases h
          · rename_i epath hje
            split at h
            · cases h
            · cases h
            · rename_i envs hre
              split at h
              · cases h
              · cases h
              · rename_i u2 fs2 hw
                split at h
                · rename_i child2 hinit
                  have hcc : child2 = child := by
                    injection h
                  subst hcc
                  have hfs1 : (prepareM w fs).2 = fs1 := by rw [hprep]
                  have hmain : mainModel w fs = (.ok child2, fs2) := by
                    unfold mainModel
                    simp only [hprep, hg, hjs, hrs, hje, hre, hw, hinit]
                  refine ⟨by rw [hprep], init_ok_exec envs w.execExists child2 hinit,
                    ⟨envs, hinit⟩, services, ?_, ?_⟩
                  · rw [hfs1, hw]
                  · rw [hmain, hfs1, hw]
                · cases h
                · cases h

theorem mainModel_state (w : World) (fs : FSState) :
    (mainModel w fs).2 = (prepareM w fs).2 ∨
    ∃ s, (mainModel w fs).2 =
      (write_string w.oracle s scriptPath ((prepareM w fs).2)).2 := by
  unfold mainModel
  split
  · rename_i e fs1 hprep
    left
    rw [hprep]
  · rename_i m fs1 hprep
    left
    rw [hprep]
  · rename_i u fs1 hprep
    have hfs1 : (prepareM w fs).2 = fs1 := by rw [hprep]
    split
    · left; rw [hfs1]
    · left; rw [hfs1]
    · split
      · left; rw [hfs1]
      · left; rw [hfs1]
      · split
        · left; rw [hfs1]
        · left; rw [hfs1]
        · rename_i services hrs
          split
          · left; rw [hfs1]
          · left; rw [hfs1]
          · split
            · left; rw [hfs1]
            · left; rw [hfs1]
            · split
              · rename_i fs2 hw
                right
                exact ⟨generate_script services, by rw [hfs1, hw]⟩
              · rename_i fs2 hw
                right
                exact ⟨generate_script services, by rw [hfs1, hw]⟩
              · rename_i u2 fs2 hw
                split
                · right
                  exact ⟨generate_script services, by rw [hfs1, hw]⟩
                · right
                  exact ⟨generate_script services, by rw [hfs1, hw]⟩
                · right
                  exact ⟨generate_script services, by rw [hfs1, hw]⟩

/-- C8: the orchestrator is a fail-fast linear pipeline — an error (or
panic) in `prepare` is returned as the outcome of `main` with the partial
state left in place; the run succeeds only when the target executable
exists and was spawned; on success the generated script has been written to
the fixed temp path with mode `0o744`; and no file written by an earlier
step is ever rolled back, whatever the outcome. -/
theorem main_pipeline_fail_fast (w : World) (fs : FSState) :
    (∀ e fs1, prepareM w fs = (.err e, fs1) → mainModel w fs = (.err e, fs1)) ∧
    (∀ m fs1, prepareM w fs = (.panic m, fs1) → mainModel w fs = (.panic m, fs1)) ∧
    (∀ child, (mainModel w fs).1 = .ok child →
      w.execExists dwlPath = true ∧ ∃ envs, init envs w.execExists = .ok child) ∧
    (w.execExists dwlPath = false → ∀ child, (mainModel w fs).1 ≠ .ok child) ∧
    (∀ child, (mainModel w fs).1 = .ok child →
      ∃ sf, alookup ((mainModel w fs).2).files scriptPath =
        some ⟨generate_script sf, 0o744⟩) ∧
    (∀ p d, p ≠ scriptPath →
      alookup ((prepareM w fs).2).files p = some d →
      alookup ((mainModel w fs).2).files p = some d) := by
  refine ⟨mainModel_prepare_err w fs, mainModel_prepare_panic w fs, ?_, ?_, ?_, ?_⟩
  · intro child hok
    obtain ⟨_, hexec, hinit, _⟩ := mainModel_ok_decompose w fs child hok
    exact ⟨hexec, hinit⟩
  · intro hex child hok
    obtain ⟨_, hexec, _, _⟩ := mainModel_ok_decompose w fs child hok
    rw [hex] at hexec
    cases hexec
  · intro child hok
    obtain ⟨_, _, _, services, hwok, hst⟩ := mainModel_ok_decompose w fs child hok
    refine ⟨services, ?_⟩
    rw [hst]
    exact write_string_ok_content _ _ _ _ hwok
  · intro p d hp hpd
    cases mainModel_state w fs with
    | inl hst =>
      rw [hst]
      exact hpd
    | inr hst =>
      obtain ⟨s, hst⟩ := hst
      rw [hst]
      rw [write_string_files_other _ _ _ _ _ hp]
      exact hpd

/-- C8 witness: on a concrete fully-working world the pipeline returns the
spawned child, so the target executable was present. -/
theorem main_pipeline_fail_fast_witness :
    exampleWorld.execExists dwlPath = true ∧
    ∃ envs, init envs exampleWorld.execExists =
      .ok ⟨dwlPath, ["-s \"/tmp/dwl_service\""], defaultEnvs, true, true⟩ :=
  (main_pipeline_fail_fast exampleWorld emptyFS).2.2.1
    ⟨dwlPath, ["-s \"/tmp/dwl_service\""], defaultEnvs, true, true⟩ (by decide)

theorem prepareM_changed_mode (w : World) (fs : FSState)
    (h : (prepareM w fs).1 = .ok ()) (p : String)
    (hch : alookup ((prepareM w fs).2).files p ≠ alookup fs.files p) :
    ∃ c, alookup ((prepareM w fs).2).files p = some ⟨c, 0o744⟩ := by
  obtain ⟨dir, hg⟩ := prepareM_ok_dir w fs h
  by_cases hdir : dir ∈ fs.dirs
  · have heq : prepareM w fs = prepareRest w.oracle dir fs := by
      unfold prepareM
      simp only [hg]
      rw [if_pos hdir]
    rw [heq] at h hch ⊢
    exact prepareRest_changed_mode w.oracle dir fs h p hch
  · by_cases hioe : w.oracle.createDirAllFails dir = true
    · exfalso
      unfold prepareM at h
      simp only [hg] at h
      rw [if_neg hdir, if_pos hioe] at h
      cases h
    · have heq : prepareM w fs = prepareRest w.oracle dir (create_dir_all dir fs) := by
        unfold prepareM
        simp only [hg]
        rw [if_neg hdir, if_neg hioe]
      rw [heq] at h hch ⊢
      have hch2 : alookup ((prepareRest w.oracle dir (create_dir_all dir fs)).2).files p ≠
          alookup (create_dir_all dir fs).files p := by
        rw [create_dir_all_files]
        exact hch
      exact prepareRest_changed_mode w.oracle dir (create_dir_all dir fs) h p hch2

/-- C10: every file this program writes — the two bootstrap defaults written
by `prepare` and the generated script written by `main` — goes through
`write_string`, so on a successful run every file whose stored data changed
ends with permission mode `0o744`. -/
theorem all_written_files_mode (w : World) (fs : FSState) :
    ((prepareM w fs).1 = .ok () →
      ∀ p, alookup ((prepareM w fs).2).files p ≠ alookup fs.files p →
        ∃ c, alookup ((prepareM w fs).2).files p = some ⟨c, 0o744⟩) ∧
    (∀ child, (mainModel w fs).1 = .ok child →
      ∀ p, alookup ((mainModel w fs).2).files p ≠ alookup fs.files p →
        ∃ c, alookup ((mainModel w fs).2).files p = some ⟨c, 0o744⟩) := by
  constructor
  · exact fun h p hch => prepareM_changed_mode w fs h p hch
  · intro child hok p hch
    obtain ⟨hprep, _, _, services, hwok, hst⟩ := mainModel_ok_decompose w fs child hok
    by_cases hp : p = scriptPath
    · subst hp
      rw [hst]
      exact ⟨generate_script services, write_string_ok_content _ _ _ _ hwok⟩
    · have hframe : alookup ((mainModel w fs).2).files p =
          alookup ((prepareM w fs).2).files p := by
        rw [hst]
        exact write_string_files_other _ _ _ _ _ hp
      rw [hframe] at hch ⊢
      exact prepareM_changed_mode w fs hprep p hch

/-- C10 witness: on the empty filesystem the bootstrap creates the default
`services` document and its final mode is `0o744`. -/
theorem all_written_files_mode_witness :
    ∃ c, alookup ((prepareM exampleWorld emptyFS).2).files
      "/home/alice/.config/dwl-launcher:services" = some ⟨c, 0o744⟩ :=
  (all_written_files_mode exampleWorld emptyFS).1 (by decide)
    "/home/alice/.config/dwl-launcher:services" (by decide)
